import Mathlib

/-!
Verification of the epsilonResnet repository
(`cifar10-epsilon-resnet.py`, `imagenet-epsilon-resnet.py`).

Tensors are modelled as rational-valued vectors `Fin n → ℚ`; the residual
convolution stack `F` and the shortcut path are abstract functions, since their
bodies are framework code (Conv2D / BNReLU / AvgPooling from tensorpack, not
part of this repository).  The gating logic of each script's `residual`
function is embedded faithfully; the sparsity-promoting function
`strict_identity` lives in `EpsilonResNetBase`, a module of this repository
whose source is not available, so it is modelled from the spec.
-/

set_option autoImplicit false

/-- An activation tensor, flattened to a rational vector of its entries. -/
abbrev Tensor (n : ℕ) : Type := Fin n → ℚ

/-- Pointwise tensor addition (the `+` between the residual branch and the
shortcut in both scripts). -/
def tadd {n : ℕ} (a b : Tensor n) : Tensor n := fun i => a i + b i

/-- Scalar-tensor product (the `identity_w * l` of the training branch). -/
def smul {n : ℕ} (w : ℚ) (a : Tensor n) : Tensor n := fun i => w * a i

/-- Modelled from the spec: the sparsity statistic that `strict_identity`
(defined in `EpsilonResNetBase`, which is missing from the sources) computes
over the residual-branch activations.  The spec only says "a sparsity
statistic of `F(input)`"; it is modelled as the sum of absolute values of the
entries, which is zero exactly on the zero activation. -/
def sparsityStat {n : ℕ} (t : Tensor n) : ℚ := ∑ i, |t i|

/-- Modelled from the spec: `strict_identity` from `EpsilonResNetBase`
(missing from the sources) "compare[s] a computed sparsity statistic to a
fixed epsilon threshold" and yields "a persistent 0/1 gate": 0 when the
statistic is below the threshold (the sparsity-promoting criterion is
satisfied, the block is discarded), 1 otherwise. -/
def strict_identity {n : ℕ} (t : Tensor n) (eps : ℚ) : ℚ :=
  if sparsityStat t < eps then 0 else 1

/-- The per-block gate variable: `tf.get_variable('identity', dtype=tf.float32,
initializer=tf.constant(1.0), trainable=False)` in both scripts
(cifar lines 87-88, imagenet lines 91-92). -/
structure GateVar where
  value : ℚ
  trainable : Bool
deriving DecidableEq

/-- The gate variable as created: initial value `1.0`, `trainable=False`. -/
def mkIdentityVar : GateVar := ⟨1, false⟩

/-- Embeds the gated core of `residual` in both scripts (cifar lines 85-106,
imagenet lines 90-110).  `F` is the block's residual convolution stack
(`residual_convs`), `short_cut` its shortcut path, `identity_w` the stored
gate value.  Returns the block output together with the gate value stored
after the call.  Training (`ctx.is_training`): the gate is reassigned to
`strict_identity(F(l), EPSILON)` and the output is
`identity_w * F(l) + short_cut(l)`.  Inference: the stored gate is read and
`tf.where(tf.equal(identity_w, 0.0), short_cut, residual_convs(...) + short_cut)`
selects the output; the gate is not modified. -/
def residualStep {m n : ℕ} (is_training : Bool) (F : Tensor m → Tensor n)
    (short_cut : Tensor m → Tensor n) (eps : ℚ) (l : Tensor m)
    (identity_w : ℚ) : Tensor n × ℚ :=
  if is_training then
    let fl := F l
    let w := strict_identity fl eps
    (tadd (smul w fl) (short_cut l), w)
  else
    (if identity_w = 0 then short_cut l else tadd (F l) (short_cut l), identity_w)

/-- Concrete residual stack used to instantiate theorems: adds 1 to the entry. -/
def wF : Tensor 1 → Tensor 1 := fun l => fun i => l i + 1

/-- Concrete shortcut used to instantiate theorems: the identity path. -/
def wSc : Tensor 1 → Tensor 1 := fun l => l

/-- Concrete input tensor used to instantiate theorems. -/
def wl : Tensor 1 := fun _ => 3

theorem strict_identity_mem {n : ℕ} (t : Tensor n) (eps : ℚ) :
    strict_identity t eps = 0 ∨ strict_identity t eps = 1 := by
  unfold strict_identity
  split <;> simp

theorem sparsityStat_eq_zero {n : ℕ} (t : Tensor n)
    (h : ∀ i, t i = 0) : sparsityStat t = 0 := by
  unfold sparsityStat
  simp [h]

/-- C1: at inference (non-training) time, a stored gate of 0.0 makes the block
output `shortcut(input)` alone, and any other stored gate value makes it
`shortcut(input) + F(input)`. -/
theorem inference_gate_selects {m n : ℕ} (F short_cut : Tensor m → Tensor n)
    (eps : ℚ) (l : Tensor m) (w : ℚ) :
    (w = 0 → (residualStep false F short_cut eps l w).1 = short_cut l) ∧
    (w ≠ 0 → (residualStep false F short_cut eps l w).1
      = tadd (short_cut l) (F l)) := by
  constructor
  · intro h
    simp [residualStep, h]
  · intro h
    simp [residualStep, h]
    funext i
    simp [tadd]
    ring

/-- Witness for C1 at a concrete block: gate 0 yields the shortcut alone,
gate 1 yields shortcut plus residual. -/
theorem inference_gate_selects_witness :
    (residualStep false wF wSc (5/2) wl 0).1 = wSc wl ∧
    (residualStep false wF wSc (5/2) wl 1).1 = tadd (wSc wl) (wF wl) :=
  ⟨(inference_gate_selects wF wSc (5/2) wl 0).1 rfl,
   (inference_gate_selects wF wSc (5/2) wl 1).2 (by norm_num)⟩

/-- C2: during training, with a positive threshold, the block output
`identity_w * F(input) + shortcut(input)` equals `shortcut(input)` exactly
when the newly assigned gate is 0; and whenever the sparsity-promoting
criterion holds the assigned gate is 0. -/
theorem train_gate_zero_iff_skip {m n : ℕ} (F short_cut : Tensor m → Tensor n)
    (eps : ℚ) (l : Tensor m) (w : ℚ) (heps : 0 < eps) :
    (sparsityStat (F l) < eps → (residualStep true F short_cut eps l w).2 = 0) ∧
    ((residualStep true F short_cut eps l w).1 = short_cut l
      ↔ (residualStep true F short_cut eps l w).2 = 0) := by
  refine ⟨fun hs => by simp [residualStep, strict_identity, hs], ?_, ?_⟩
  · intro heq
    simp only [residualStep] at heq ⊢
    by_contra hne
    have h1 : strict_identity (F l) eps = 1 :=
      (strict_identity_mem (F l) eps).resolve_left hne
    have hzero : ∀ i, F l i = 0 := by
      intro i
      have := congrFun heq i
      simp [tadd, smul, h1] at this
      linarith
    have hlt : sparsityStat (F l) < eps := by
      rw [sparsityStat_eq_zero (F l) hzero] at *
      exact heps
    simp [strict_identity, hlt] at h1
  · intro h0
    simp [residualStep] at h0 ⊢
    funext i
    simp [tadd, smul, h0]

/-- Witness for C2 at a concrete block with threshold 5/2. -/
theorem train_gate_zero_iff_skip_witness :
    (sparsityStat (wF wl) < 5/2 → (residualStep true wF wSc (5/2) wl 1).2 = 0) ∧
    ((residualStep true wF wSc (5/2) wl 1).1 = wSc wl
      ↔ (residualStep true wF wSc (5/2) wl 1).2 = 0) :=
  train_gate_zero_iff_skip wF wSc (5/2) wl 1 (by norm_num)

/-- C4: the gate variable is created non-trainable; every training step
reassigns it to `strict_identity` of the residual-branch activations, and an
inference step leaves the stored value unchanged. -/
theorem gate_variable_lifecycle :
    mkIdentityVar.trainable = false ∧
    (∀ (m n : ℕ) (F short_cut : Tensor m → Tensor n) (eps : ℚ)
      (l : Tensor m) (w : ℚ),
      (residualStep true F short_cut eps l w).2 = strict_identity (F l) eps) ∧
    (∀ (m n : ℕ) (F short_cut : Tensor m → Tensor n) (eps : ℚ)
      (l : Tensor m) (w : ℚ),
      (residualStep false F short_cut eps l w).2 = w) := by
  refine ⟨rfl, fun m n F sc eps l w => ?_, fun m n F sc eps l w => ?_⟩
  · simp [residualStep]
  · simp [residualStep]

/-- C6: the gate stored by any training step is exactly 0 or exactly 1 (as is
the initial value), and inference branches on the stored gate between
shortcut only and shortcut plus residual. -/
theorem gate_binary_and_inference_branch :
    (∀ (m n : ℕ) (F short_cut : Tensor m → Tensor n) (eps : ℚ)
      (l : Tensor m) (w : ℚ),
      (residualStep true F short_cut eps l w).2 = 0 ∨
        (residualStep true F short_cut eps l w).2 = 1) ∧
    mkIdentityVar.value = 1 ∧
    (∀ (m n : ℕ) (F short_cut : Tensor m → Tensor n) (eps : ℚ)
      (l : Tensor m) (w : ℚ),
      (residualStep false F short_cut eps l w).1
        = if w = 0 then short_cut l else tadd (F l) (short_cut l)) := by
  refine ⟨fun m n F sc eps l w => ?_, rfl, fun m n F sc eps l w => ?_⟩
  · simp only [residualStep]
    exact strict_identity_mem (F l) eps
  · simp [residualStep]

/-- C9: the gate variable is created non-trainable with initial value 1.0, so
a freshly initialized block at inference computes shortcut plus residual: no
block is discarded before any training-step assignment. -/
theorem fresh_model_full_network :
    mkIdentityVar.value = 1 ∧
    mkIdentityVar.trainable = false ∧
    (∀ (m n : ℕ) (F short_cut : Tensor m → Tensor n) (eps : ℚ) (l : Tensor m),
      (residualStep false F short_cut eps l mkIdentityVar.value).1
        = tadd (short_cut l) (F l)) := by
  refine ⟨rfl, rfl, fun m n F sc eps l => ?_⟩
  have h1 : mkIdentityVar.value ≠ 0 := by
    simp [mkIdentityVar]
  simp [residualStep, h1, mkIdentityVar]
  funext i
  simp [tadd]
  ring

/-- Embeds the cifar script's epsilon handling (`EPSILON = 2.5` at line 42;
`if args.epsilon: EPSILON = float(args.epsilon)` at lines 227-228).  The
argument is the parsed the epsilon flag value; any numeric value passed on the
command line is a nonempty string, hence truthy, so it replaces the default.
`residual` then calls `strict_identity(l, EPSILON)` (line 92) with this
module-level value. -/
def cifarEpsilonUsed : Option ℚ → ℚ
  | some e => e
  | none => 5/2

/-- Embeds the imagenet script's epsilon handling: `EPSILON = 2.0` at line 25;
the epsilon flag is parsed (lines 298-299) but `args.epsilon` is never assigned
to `EPSILON`, so `residual`'s call `strict_identity(l, EPSILON)` (line 97)
always receives the module default 2.0, whatever the flag carries. -/
def imagenetEpsilonUsed : Option ℚ → ℚ := fun _ => 2

/-- The imagenet block kinds: `basicblock` and `bottleneck` (lines 64-68). -/
inductive BlockFunc
  | basicblock
  | bottleneck
deriving DecidableEq

/-- Embeds the imagenet `cfg` dict (lines 112-118) mapping a depth to its
per-group block counts and block function; `cfg[DEPTH]` has no entry for any
other depth. -/
def imagenetCfg (d : ℤ) : Option (List ℕ × BlockFunc) :=
  if d = 18 then some ([2, 2, 2, 2], BlockFunc.basicblock)
  else if d = 34 then some ([3, 4, 6, 3], BlockFunc.basicblock)
  else if d = 50 then some ([3, 4, 6, 3], BlockFunc.bottleneck)
  else if d = 101 then some ([3, 4, 23, 3], BlockFunc.bottleneck)
  else if d = 152 then some ([3, 8, 36, 3], BlockFunc.bottleneck)
  else none

/-- The `choices=[18, 34, 50, 101, 152]` list of the imagenet depth
argument (lines 294-295). -/
def imagenetDepthChoices : List ℤ := [18, 34, 50, 101, 152]

/-- Whether argument parsing accepts a given depth: argparse rejects any
value outside `choices`. -/
def imagenetDepthAccepted (d : ℤ) : Bool := imagenetDepthChoices.contains d

/-- Embeds cifar `Model._build_graph` lines 54-58: the input is scaled, then
`assert tf.test.is_gpu_available()` runs, then the input is transposed to
NCHW.  Returns the data format of the graph being built, or `none` when the
assertion fails and construction aborts. -/
def cifarBuildFormat (gpuAvailable : Bool) : Option String :=
  if gpuAvailable then some "NCHW" else none

/-- Embeds imagenet `Model.__init__` lines 28-31: exactly when
`data_format == 'NCHW'`, `assert tf.test.is_gpu_available()` runs; the format
is stored afterwards.  Returns the stored format, or `none` when the
assertion fails and construction aborts. -/
def imagenetInit (data_format : String) (gpuAvailable : Bool) : Option String :=
  if data_format = "NCHW" then
    if gpuAvailable then some data_format else none
  else some data_format

/-- C3 counterexample on the imagenet side: passing epsilon 5 via the flag
leaves the threshold used by `strict_identity` at the hard-coded default 2,
while the cifar script does propagate the flag value. -/
theorem imagenet_epsilon_flag_unused :
    imagenetEpsilonUsed (some 5) = 2 ∧ (2 : ℚ) ≠ 5 ∧
    cifarEpsilonUsed (some 5) = 5 := by
  refine ⟨rfl, by norm_num, rfl⟩

/-- C7: the imagenet depth argument accepts exactly the values 18, 34, 50,
101 and 152, and each accepted depth selects the corresponding block-count
list and block function (basicblock for 18 and 34, bottleneck for 50, 101 and
152); every rejected depth has no `cfg` entry. -/
theorem imagenet_depth_choices_cfg :
    (∀ d : ℤ, imagenetDepthAccepted d = true ↔
      (d = 18 ∨ d = 34 ∨ d = 50 ∨ d = 101 ∨ d = 152)) ∧
    imagenetCfg 18 = some ([2, 2, 2, 2], BlockFunc.basicblock) ∧
    imagenetCfg 34 = some ([3, 4, 6, 3], BlockFunc.basicblock) ∧
    imagenetCfg 50 = some ([3, 4, 6, 3], BlockFunc.bottleneck) ∧
    imagenetCfg 101 = some ([3, 4, 23, 3], BlockFunc.bottleneck) ∧
    imagenetCfg 152 = some ([3, 8, 36, 3], BlockFunc.bottleneck) ∧
    (∀ d : ℤ, imagenetDepthAccepted d = false → imagenetCfg d = none) := by
  refine ⟨?_, rfl, rfl, rfl, rfl, rfl, ?_⟩
  · intro d
    simp [imagenetDepthAccepted, imagenetDepthChoices]
  · intro d hd
    simp [imagenetDepthAccepted, imagenetDepthChoices] at hd
    obtain ⟨h18, h34, h50, h101, h152⟩ := hd
    simp [imagenetCfg, h18, h34, h50, h101, h152]

/-- C8: the cifar graph build asserts GPU availability before transposing to
NCHW and aborts when it fails; the imagenet model asserts GPU availability
exactly when its data_format is NCHW, and NHWC proceeds with or without a
GPU. -/
theorem gpu_assertion_gates_nchw :
    cifarBuildFormat true = some "NCHW" ∧
    cifarBuildFormat false = none ∧
    imagenetInit "NCHW" true = some "NCHW" ∧
    imagenetInit "NCHW" false = none ∧
    (∀ gpuAvailable : Bool, imagenetInit "NHWC" gpuAvailable = some "NHWC") := by
  refine ⟨rfl, rfl, rfl, rfl, fun g => ?_⟩
  simp [imagenetInit]

/-- Embeds the cifar side-output insertion (lines 120-123): in stage 2, for
`k in range(1, n)` a side output is added when `k == self.n/2` (Python 2
integer division).  Returns how many side heads the build inserts for `n`
units per stage. -/
def cifarSideCount (nUnits : ℕ) : ℕ :=
  ((List.range' 1 (nUnits - 1)).filter (fun k => decide (k = nUnits / 2))).length

/-- Embeds the imagenet `SIDE_POSITION` computation (line 121):
`sum(defs)/2 - sum(defs[:2]) - 1` with Python 2 integer division. -/
def sidePos (defs : List ℕ) : ℤ :=
  ((defs.sum / 2 : ℕ) : ℤ) - (((defs.take 2).sum : ℕ) : ℤ) - 1

/-- Embeds the imagenet side-output insertion in `layer` (lines 123-137, with
the scripts' `&&` read as the intended `and`): in group2 a side head is added
after block0 when `SIDE_POSITION == 0`, and after block `i` for
`i in range(1, count)` when `i == SIDE_POSITION`, where `count = defs[2]`.
Returns how many side heads the build inserts for a given depth. -/
def imagenetSideCount (depth : ℤ) : ℕ :=
  match imagenetCfg depth with
  | none => 0
  | some (defs, _) =>
    let sp := sidePos defs
    let cnt := defs.getD 2 0
    (if sp = 0 then 1 else 0) +
      ((List.range' 1 (cnt - 1)).filter (fun i => decide ((i : ℤ) = sp))).length

/-- Embeds the sequence of residual blocks built by cifar `_build_graph`
(lines 113-127): `res1.0` then `res1.k` for `k in range(1, n)`, and likewise
for stages 2 and 3. -/
def cifarBlocks (nUnits : ℕ) : List String :=
  ("res1.0" :: (List.range' 1 (nUnits - 1)).map (fun k => "res1." ++ toString k)) ++
  ("res2.0" :: (List.range' 1 (nUnits - 1)).map (fun k => "res2." ++ toString k)) ++
  ("res3.0" :: (List.range' 1 (nUnits - 1)).map (fun k => "res3." ++ toString k))

/-- Embeds `is_discarded = tf.where(tf.equal(identity_w, 0.0), 1.0, 0.0)`
(cifar lines 102-103). -/
def is_discarded (w : ℚ) : ℚ := if w = 0 then 1 else 0

/-- Embeds `discarded_cnt = tf.add_n(preds)` (cifar line 139): the sum of the
per-block `is_discarded` values, one per constructed block gate. -/
def discarded_cnt (gates : List ℚ) : ℚ := (gates.map is_discarded).sum

/-- Embeds `all_cnt = tf.constant(self.n * 3 + 2)` (cifar line 60). -/
def all_cnt (nUnits : ℕ) : ℚ := nUnits * 3 + 2

/-- Embeds `discarded_ratio = tf.divide(discarded_cnt, all_cnt)` (cifar
lines 140-141). -/
def discardedRate (gates : List ℚ) (nUnits : ℕ) : ℚ :=
  discarded_cnt gates / all_cnt nUnits

theorem discarded_cnt_eq_count (gates : List ℚ) :
    discarded_cnt gates
      = ((gates.filter (fun w => decide (w = 0))).length : ℚ) := by
  induction gates with
  | nil => simp [discarded_cnt]
  | cons a t ih =>
    by_cases ha : a = 0 <;>
      simp [discarded_cnt, is_discarded, ha, List.filter_cons] at ih ⊢
    · rw [ih]
      ring
    · rw [ih]

/-- C5: the claim asks for exactly one mid-network side head in every
supported configuration, but at depth 18 the imagenet build computes
`SIDE_POSITION = 8/2 - 4 - 1 = -1` and inserts no side head at all (while
depths 34, 50, 101 and 152 insert exactly one). -/
theorem imagenet_depth18_no_side_head :
    imagenetSideCount 18 = 0 ∧ sidePos [2, 2, 2, 2] = -1 ∧
    imagenetSideCount 34 = 1 ∧ imagenetSideCount 50 = 1 ∧
    imagenetSideCount 101 = 1 ∧ imagenetSideCount 152 = 1 := by
  refine ⟨?_, ?_, ?_, ?_, ?_, ?_⟩ <;> decide

/-- C10: the cifar build with `n ≥ 1` units per stage constructs exactly
`3n` gated residual blocks; `discarded_cnt` counts exactly the blocks whose
gate is 0 (each contributes 1.0 iff its gate equals 0.0); and the reported
ratio divides that count by the constant `3n + 2`, which differs from the
number `3n` of gated blocks. -/
theorem cifar_block_count_discarded (nUnits : ℕ) (h : 1 ≤ nUnits) :
    (cifarBlocks nUnits).length = 3 * nUnits ∧
    (∀ gates : List ℚ, discarded_cnt gates
      = ((gates.filter (fun w => decide (w = 0))).length : ℚ)) ∧
    (∀ gates : List ℚ, discardedRate gates nUnits
      = discarded_cnt gates / (3 * nUnits + 2)) ∧
    all_cnt nUnits ≠ (3 * nUnits : ℚ) := by
  refine ⟨?_, discarded_cnt_eq_count, fun gates => ?_, ?_⟩
  · simp [cifarBlocks]
    omega
  · unfold discardedRate all_cnt
    ring_nf
  · unfold all_cnt
    intro hc
    have : (nUnits : ℚ) * 3 + 2 = 3 * nUnits := hc
    linarith

/-- Witness for C10 at n = 2: six blocks, the zero-gate count, and the ratio
denominator 8. -/
theorem cifar_block_count_discarded_witness :
    (cifarBlocks 2).length = 3 * 2 ∧
    (∀ gates : List ℚ, discarded_cnt gates
      = ((gates.filter (fun w => decide (w = 0))).length : ℚ)) ∧
    (∀ gates : List ℚ, discardedRate gates 2
      = discarded_cnt gates / (3 * 2 + 2)) ∧
    all_cnt 2 ≠ (3 * 2 : ℚ) :=
  cifar_block_count_discarded 2 (by norm_num)
